import Mathlib

/-!
Verification of the Safe Chat Filter backend (src/backend/app.py).

The embedding models the three components of the service:
the heuristic regex classifier (check_with_heuristic together with the
static HEURISTIC_PATTERNS table), the translation of a well-formed
upstream moderation response (check_with_openai), and the request router
(check_text) plus the health probe (health_check).

Python strings are modelled as Lean strings at the ASCII level: the
word-character class of the regex escape \b is modelled as ASCII
alphanumerics plus the underscore, str.lower and str.title act on ASCII
letters, and str.strip removes the six ASCII whitespace characters.
Every pattern in the static table is an alternation of ASCII lowercase
words wrapped in word boundaries, so this is the fragment of Python
regex semantics the source exercises.

The outbound HTTP call is modelled by an oracle
upstream : String -> Option ModerationResult: the value at the text that
the router sends is the parsed upstream payload on success, and none
stands for every failure mode that the try/except in check_with_openai
converts into an HTTPException (transport error, timeout, non-success
status via raise_for_status, malformed JSON or a missing key).
The OPENAI_API_KEY environment variable is an Option String, and the
Python truthiness test on it is credential_present.
-/

namespace SafeMsg

/-- Shape of the JSON body of POST /api/check responses (class CheckResponse). -/
structure CheckResult where
  safe : Bool
  reasons : List String
  mode : String
deriving Repr, DecidableEq

/-- Parsed shape of one well-formed upstream moderation result:
data["results"][0] with its "flagged" boolean and its "categories"
mapping, kept as an association list in upstream order. -/
structure ModerationResult where
  flagged : Bool
  categories : List (String × Bool)
deriving Repr, DecidableEq

/-- Shape of the GET /api/health JSON body. -/
structure HealthResult where
  status : String
  openai_available : Bool
  heuristic_available : Bool
deriving Repr, DecidableEq

/-- Word characters of the regex escape \b, at the ASCII level:
letters, digits and the underscore. -/
def isWordChar (c : Char) : Bool := c.isAlphanum || c == '_'

/-- The six ASCII whitespace characters removed by Python str.strip(). -/
def isPySpace (c : Char) : Bool :=
  c == ' ' || c == '\t' || c == '\n' || c == '\r' || c == '\x0b' || c == '\x0c'

/-- Python str.strip(): drop whitespace from both ends. -/
def pyStrip (s : String) : String :=
  ⟨((s.data.dropWhile isPySpace).reverse.dropWhile isPySpace).reverse⟩

/-- Python str.lower() on ASCII letters. -/
def pyLower (s : String) : String := ⟨s.data.map Char.toLower⟩

/-- Helper for Python str.title(): the boolean records whether the
previous character was a letter (start of a word otherwise). -/
def pyTitleAux : Bool → List Char → List Char
  | _, [] => []
  | prevAlpha, c :: cs =>
    if c.isAlpha then
      (if prevAlpha then c.toLower else c.toUpper) :: pyTitleAux true cs
    else
      c :: pyTitleAux false cs

/-- Python str.title() on ASCII letters: first letter of each word
uppercased, the rest lowercased. -/
def pyTitle (s : String) : String := ⟨pyTitleAux false s.data⟩

/-- Python category.replace(underscore, space). -/
def pyReplaceUnderscore (s : String) : String :=
  ⟨s.data.map (fun c => if c == '_' then ' ' else c)⟩

/-- The reason string built at app.py lines 90 and 109:
"Detected: " followed by the category name with underscores replaced by
spaces and title-cased. Both the upstream translation and the heuristic
classifier use this same format. -/
def formatReason (category : String) : String :=
  "Detected: " ++ pyTitle (pyReplaceUnderscore category)

/-- The static HEURISTIC_PATTERNS table (app.py lines 43-64).
Each regex in the source is an alternation of plain words wrapped in
word boundaries, so a pattern is represented by its list of alternative
words; dict iteration order in Python 3 is insertion order, which the
list order records. -/
def HEURISTIC_PATTERNS : List (String × List (List String)) :=
  [("violence",
     [["kill", "murder", "assault", "attack", "fight", "violence", "harm", "hurt"],
      ["weapon", "gun", "knife", "bomb", "explosive"],
      ["threat", "threaten", "intimidate"]]),
   ("harassment",
     [["stupid", "idiot", "moron", "dumb", "ugly", "fat", "gross"],
      ["hate", "despise", "loathe"],
      ["harass", "bully", "intimidate"]]),
   ("inappropriate",
     [["sex", "sexual", "nude", "naked", "porn", "adult"],
      ["drug", "alcohol", "drunk", "high", "stoned"],
      ["scam", "fraud", "cheat", "steal", "rob"]]),
   ("spam",
     [["buy", "sell", "promo", "discount", "offer", "deal"],
      ["click", "link", "website", "url"],
      ["follow", "subscribe", "like", "share"]])]

/-- The word w matches at the position where cs starts: w is a literal
word made of word characters, so the regex \bw\b matches there exactly
when w is a prefix of cs, the previous character (prev, none at the
start of the text) is not a word character, and the character after the
match, if any, is not a word character. -/
def matchWordAt (w : List Char) (prev : Option Char) (cs : List Char) : Bool :=
  w.isPrefixOf cs
    && (match prev with
        | none => true
        | some c => !isWordChar c)
    && (match cs.drop w.length with
        | [] => true
        | c :: _ => !isWordChar c)

/-- re.search for the word pattern: try every position of the text. -/
def searchWordFrom (w : List Char) : Option Char → List Char → Bool
  | prev, [] => matchWordAt w prev []
  | prev, c :: cs => matchWordAt w prev (c :: cs) || searchWordFrom w (some c) cs

/-- re.search of the single word w with word boundaries in text. -/
def searchWord (w : String) (text : String) : Bool :=
  searchWordFrom w.data none text.data

/-- re.search of one pattern of the table: an alternation matches
somewhere exactly when one of its alternative words matches somewhere. -/
def patternMatches (alts : List String) (text : String) : Bool :=
  alts.any (fun w => searchWord w text)

/-- Inner loop of check_with_heuristic (app.py lines 107-110): scan the
patterns of one category in order; the loop body either appends one
reason and leaves the loop at the first match, or reaches the end, so
its observable effect is whether some pattern matched. -/
def categoryHit (text_lower : String) : List (List String) → Bool
  | [] => false
  | p :: ps => patternMatches p text_lower || categoryHit text_lower ps

/-- Outer loop of check_with_heuristic (app.py lines 106-110): one
formatted reason per category whose inner scan hit, in table order. -/
def heuristicScan (text_lower : String) : List (String × List (List String)) → List String
  | [] => []
  | (cat, pats) :: rest =>
    if categoryHit text_lower pats then
      formatReason cat :: heuristicScan text_lower rest
    else
      heuristicScan text_lower rest

/-- check_with_heuristic (app.py lines 101-116): lower-case the text,
scan the static table, and return safe iff no reason was collected,
with mode "heuristic". -/
def check_with_heuristic (text : String) : CheckResult :=
  let text_lower := pyLower text
  let reasons := heuristicScan text_lower HEURISTIC_PATTERNS
  { safe := reasons.length == 0, reasons := reasons, mode := "heuristic" }

/-- Reason loop of check_with_openai (app.py lines 88-90): one formatted
reason per category marked true, in upstream order. -/
def openaiReasonList : List (String × Bool) → List String
  | [] => []
  | (cat, f) :: rest =>
    if f then formatReason cat :: openaiReasonList rest else openaiReasonList rest

/-- Success path of check_with_openai (app.py lines 82-96): given the
parsed upstream result, safe is the negation of flagged, and the reason
loop runs only under the `if flagged:` guard of line 87. -/
def check_with_openai (result : ModerationResult) : CheckResult :=
  { safe := !result.flagged,
    reasons := if result.flagged then openaiReasonList result.categories else [],
    mode := "openai" }

/-- check_with_openai including its failure behaviour (app.py lines
66-99): when the oracle yields a parsed result the translation above is
returned; every failure of the call or of the parse is caught by the
except clause and re-raised as an HTTPException, modelled as an error. -/
def check_with_openai_call (upstream : String → Option ModerationResult)
    (text : String) : Except Unit CheckResult :=
  match upstream text with
  | some r => Except.ok (check_with_openai r)
  | none => Except.error ()

/-- Python truthiness of os.getenv("OPENAI_API_KEY"): false when the
variable is absent or set to the empty string. -/
def credential_present (key : Option String) : Bool :=
  match key with
  | none => false
  | some s => !s.isEmpty

/-- check_text, the POST /api/check handler (app.py lines 124-147):
empty-after-strip text short-circuits to mode "none"; otherwise the
upstream path is attempted when the credential is truthy, its
HTTPException is swallowed, and the heuristic serves every remaining
case. -/
def check_text (key : Option String) (upstream : String → Option ModerationResult)
    (text : String) : CheckResult :=
  if (pyStrip text).isEmpty then
    { safe := true, reasons := [], mode := "none" }
  else if credential_present key then
    match check_with_openai_call upstream text with
    | Except.ok r => r
    | Except.error _ => check_with_heuristic text
  else
    check_with_heuristic text

/-- health_check, the GET /api/health handler (app.py lines 150-157). -/
def health_check (key : Option String) : HealthResult :=
  { status := "healthy",
    openai_available := credential_present key,
    heuristic_available := true }

theorem categoryHit_eq_any (t : String) (ps : List (List String)) :
    categoryHit t ps = ps.any (fun p => patternMatches p t) := by
  induction ps with
  | nil => rfl
  | cons p ps ih => simp [categoryHit, ih]

theorem heuristicScan_eq (t : String) (l : List (String × List (List String))) :
    heuristicScan t l
      = (l.filter (fun cp => categoryHit t cp.2)).map (fun cp => formatReason cp.1) := by
  induction l with
  | nil => rfl
  | cons cp rest ih =>
    obtain ⟨cat, pats⟩ := cp
    cases h : categoryHit t pats <;> simp [heuristicScan, List.filter_cons, h, ih]

theorem openaiReasonList_eq (cats : List (String × Bool)) :
    openaiReasonList cats
      = (cats.filter (fun p => p.2)).map (fun p => formatReason p.1) := by
  induction cats with
  | nil => rfl
  | cons p rest ih =>
    obtain ⟨cat, f⟩ := p
    cases f <;> simp [openaiReasonList, List.filter_cons, ih]

theorem dropWhile_of_all {p : Char → Bool} :
    ∀ l : List Char, l.all p = true → l.dropWhile p = []
  | [], _ => rfl
  | c :: cs, h => by
    simp only [List.all_cons, Bool.and_eq_true] at h
    simp [List.dropWhile, h.1, dropWhile_of_all cs h.2]

theorem pyStrip_isEmpty_of_all (s : String) (h : s.data.all isPySpace = true) :
    (pyStrip s).isEmpty = true := by
  unfold pyStrip
  rw [dropWhile_of_all _ h]
  rfl

theorem heuristic_safe_iff (text : String) :
    ((check_with_heuristic text).safe = true ↔ (check_with_heuristic text).reasons = []) := by
  simp [check_with_heuristic, List.length_eq_zero]

example : check_with_heuristic "Lets grab coffee sometime"
    = { safe := true, reasons := [], mode := "heuristic" } := by decide

example : formatReason "hate_threatening" = "Detected: Hate Threatening" := by decide

/-- Claim C1, counterexample: the claim requires one reason per true
category independently of the top-level flagged boolean, but on the
well-formed response with flagged = false and the violence category
true the code returns an empty reasons list, because the reason loop
sits under the `if flagged:` guard (app.py line 87). -/
theorem C1_counterexample_unflagged_category :
    (check_with_openai ⟨false, [("violence", true)]⟩).reasons = []
      ∧ formatReason "violence" = "Detected: Violence"
      ∧ ¬((check_with_openai ⟨false, [("violence", true)]⟩).reasons
            = ["Detected: Violence"]) := by
  decide

/-- Claim C1, amended: for every well-formed upstream response,
check_with_openai returns mode "openai" with safe equal to the negation
of the upstream flagged boolean; when flagged is true, reasons contains
exactly one entry per category whose per-category boolean is true, in
upstream order, each formatted identically to the heuristic's reason
strings (formatReason); when flagged is false, reasons is empty
regardless of the per-category flags. -/
theorem C1_openai_translation (r : ModerationResult) :
    (check_with_openai r).mode = "openai"
      ∧ (check_with_openai r).safe = !r.flagged
      ∧ (check_with_openai r).reasons
          = (if r.flagged then
              (r.categories.filter (fun p => p.2)).map (fun p => formatReason p.1)
            else []) := by
  refine ⟨rfl, rfl, ?_⟩
  cases hf : r.flagged <;> simp [check_with_openai, hf, openaiReasonList_eq]

/-- Claim C2: for every request whose text is empty or consists only of
whitespace, check_text returns exactly safe = true, reasons = [],
mode = "none", for every credential configuration and every behaviour
of the upstream oracle (neither classifier is consulted). -/
theorem C2_blank_input_short_circuit (key : Option String)
    (upstream : String → Option ModerationResult) (text : String)
    (h : text.data.all isPySpace = true) :
    check_text key upstream text = { safe := true, reasons := [], mode := "none" } := by
  simp [check_text, pyStrip_isEmpty_of_all text h]

/-- Claim C2 witness: whitespace-only input with a credential configured
and an upstream oracle that would flag everything still yields the
"none" verdict. -/
theorem C2_blank_input_short_circuit_witness :
    check_text (some "sk-test") (fun _ => some ⟨true, [("violence", true)]⟩) "   "
      = { safe := true, reasons := [], mode := "none" } :=
  C2_blank_input_short_circuit (some "sk-test")
    (fun _ => some ⟨true, [("violence", true)]⟩) "   " (by decide)

/-- Claim C3: for every non-empty (after trimming) input with a truthy
credential, when the upstream call fails (the oracle yields none, which
covers transport errors, timeouts, non-success statuses and malformed
payloads alike), check_text discards the error and returns exactly the
heuristic verdict with mode "heuristic". -/
theorem C3_upstream_failure_fallback (key : Option String)
    (upstream : String → Option ModerationResult) (text : String)
    (hkey : credential_present key = true)
    (hne : (pyStrip text).isEmpty = false)
    (hfail : upstream text = none) :
    check_text key upstream text = check_with_heuristic text
      ∧ (check_text key upstream text).mode = "heuristic" := by
  have h1 : check_text key upstream text = check_with_heuristic text := by
    simp [check_text, hne, hkey, check_with_openai_call, hfail]
  exact ⟨h1, by rw [h1]; rfl⟩

/-- Claim C3 witness: with a configured credential and a failing
upstream, the input string evaluates to the heuristic verdict. -/
theorem C3_upstream_failure_fallback_witness :
    check_text (some "sk-test") (fun _ => none) "hello there"
        = check_with_heuristic "hello there"
      ∧ (check_text (some "sk-test") (fun _ => none) "hello there").mode = "heuristic" :=
  C3_upstream_failure_fallback (some "sk-test") (fun _ => none) "hello there"
    (by decide) (by decide) rfl

/-- Claim C4: every check_text response whose mode is "heuristic" or
"none" has safe = true exactly when its reasons list is empty. -/
theorem C4_safe_iff_no_reasons (key : Option String)
    (upstream : String → Option ModerationResult) (text : String)
    (h : (check_text key upstream text).mode = "heuristic"
        ∨ (check_text key upstream text).mode = "none") :
    ((check_text key upstream text).safe = true
      ↔ (check_text key upstream text).reasons = []) := by
  by_cases he : (pyStrip text).isEmpty = true
  · have hct : check_text key upstream text
        = { safe := true, reasons := [], mode := "none" } := by
      simp [check_text, he]
    rw [hct]
    simp
  · by_cases hc : credential_present key = true
    · cases hu : upstream text with
      | none =>
        have hct : check_text key upstream text = check_with_heuristic text := by
          simp [check_text, he, hc, check_with_openai_call, hu]
        rw [hct]
        exact heuristic_safe_iff text
      | some r =>
        have hct : check_text key upstream text = check_with_openai r := by
          simp [check_text, he, hc, check_with_openai_call, hu]
        rw [hct] at h
        have hm : (check_with_openai r).mode = "openai" := rfl
        rw [hm] at h
        rcases h with h | h
        · exact absurd h (by decide)
        · exact absurd h (by decide)
    · have hct : check_text key upstream text = check_with_heuristic text := by
        simp [check_text, he, hc]
      rw [hct]
      exact heuristic_safe_iff text

/-- Claim C4 witness: a concrete "heuristic"-mode response, with the
invariant instantiated there. -/
theorem C4_safe_iff_no_reasons_witness :
    ((check_text none (fun _ => none) "good morning").safe = true
      ↔ (check_text none (fun _ => none) "good morning").reasons = []) :=
  C4_safe_iff_no_reasons none (fun _ => none) "good morning" (Or.inl (by decide))

/-- Claim C5: the heuristic classifier lower-cases the input and scans
the categories in the fixed table order; its reasons list holds exactly
one formatted reason per category with some matching pattern, in that
order, hence at most 4 reasons with no duplicate category; safe is true
exactly when no category matched; the mode is "heuristic". -/
theorem C5_heuristic_algorithm (text : String) :
    (check_with_heuristic text).reasons
        = (HEURISTIC_PATTERNS.filter
            (fun cp => cp.2.any (fun p => patternMatches p (pyLower text)))).map
            (fun cp => formatReason cp.1)
      ∧ (check_with_heuristic text).reasons.length ≤ 4
      ∧ ((check_with_heuristic text).safe = true ↔
          ∀ cp ∈ HEURISTIC_PATTERNS,
            cp.2.any (fun p => patternMatches p (pyLower text)) = false)
      ∧ (check_with_heuristic text).reasons.Nodup
      ∧ (check_with_heuristic text).mode = "heuristic" := by
  have hr : (check_with_heuristic text).reasons
      = (HEURISTIC_PATTERNS.filter
          (fun cp => cp.2.any (fun p => patternMatches p (pyLower text)))).map
          (fun cp => formatReason cp.1) := by
    show heuristicScan (pyLower text) HEURISTIC_PATTERNS = _
    simp only [heuristicScan_eq, categoryHit_eq_any]
  refine ⟨hr, ?_, ?_, ?_, rfl⟩
  · rw [hr, List.length_map]
    exact le_trans (List.length_filter_le _ _) (by decide)
  · rw [heuristic_safe_iff, hr]
    simp [List.filter_eq_nil_iff]
  · rw [hr]
    have hsub : List.Sublist
        (HEURISTIC_PATTERNS.filter
          (fun cp => cp.2.any (fun p => patternMatches p (pyLower text))))
        HEURISTIC_PATTERNS :=
      List.filter_sublist _
    have hmap := hsub.map (fun cp => formatReason cp.1)
    have hnd : (HEURISTIC_PATTERNS.map (fun cp => formatReason cp.1)).Nodup := by decide
    exact hnd.sublist hmap

/-- Claim C6: for every non-empty (after trimming) input, when the
credential is absent or empty the response is exactly the heuristic
verdict with mode "heuristic", never "openai" and never "none", for
every behaviour of the upstream oracle (the upstream path is not
attempted). -/
theorem C6_no_credential_heuristic (key : Option String)
    (upstream : String → Option ModerationResult) (text : String)
    (hkey : credential_present key = false)
    (hne : (pyStrip text).isEmpty = false) :
    check_text key upstream text = check_with_heuristic text
      ∧ (check_text key upstream text).mode = "heuristic"
      ∧ (check_text key upstream text).mode ≠ "openai"
      ∧ (check_text key upstream text).mode ≠ "none" := by
  have h1 : check_text key upstream text = check_with_heuristic text := by
    simp [check_text, hne, hkey]
  have hm : (check_text key upstream text).mode = "heuristic" := by rw [h1]; rfl
  refine ⟨h1, hm, ?_, ?_⟩ <;> rw [hm] <;> decide

/-- Claim C6 witness: with no credential, an upstream oracle that would
flag the text is ignored and the heuristic verdict is returned. -/
theorem C6_no_credential_heuristic_witness :
    check_text none (fun _ => some ⟨true, [("violence", true)]⟩) "hello there all"
        = check_with_heuristic "hello there all"
      ∧ (check_text none (fun _ => some ⟨true, [("violence", true)]⟩)
          "hello there all").mode = "heuristic"
      ∧ (check_text none (fun _ => some ⟨true, [("violence", true)]⟩)
          "hello there all").mode ≠ "openai"
      ∧ (check_text none (fun _ => some ⟨true, [("violence", true)]⟩)
          "hello there all").mode ≠ "none" :=
  C6_no_credential_heuristic none (fun _ => some ⟨true, [("violence", true)]⟩)
    "hello there all" rfl (by decide)

/-- Claim C7: on the input "You are so stupid and ugly" the heuristic
classifier returns safe = false with the single reason
"Detected: Harassment"; both the words stupid and ugly match harassment
patterns, yet the category contributes only one reason, and no other
category matches. -/
theorem C7_example_harassment :
    check_with_heuristic "You are so stupid and ugly"
        = { safe := false, reasons := ["Detected: Harassment"], mode := "heuristic" }
      ∧ searchWord "stupid" (pyLower "You are so stupid and ugly") = true
      ∧ searchWord "ugly" (pyLower "You are so stupid and ugly") = true := by
  decide

/-- Claim C8: the health probe always reports status "healthy" and
heuristic_available = true, and reports openai_available = false
exactly when the credential is absent or empty (true exactly when a
truthy credential is configured). -/
theorem C8_health_probe (key : Option String) :
    (health_check key).status = "healthy"
      ∧ (health_check key).heuristic_available = true
      ∧ ((health_check key).openai_available = false ↔ credential_present key = false)
      ∧ ((health_check key).openai_available = true ↔ credential_present key = true) := by
  refine ⟨rfl, rfl, ?_, ?_⟩ <;> simp [health_check]

/-- Claim C9: on the upstream path, whenever the upstream response has
flagged = false the returned reasons list is empty regardless of the
per-category flags, and the response has safe = true; hence every
"openai"-mode response with safe = true has empty reasons. -/
theorem C9_unflagged_empty_reasons (flagged : Bool) (cats : List (String × Bool))
    (h : flagged = false) :
    (check_with_openai ⟨flagged, cats⟩).reasons = []
      ∧ (check_with_openai ⟨flagged, cats⟩).safe = true := by
  subst h
  exact ⟨rfl, rfl⟩

/-- Claim C9 witness: an unflagged response whose category flags are all
true still yields empty reasons and safe = true. -/
theorem C9_unflagged_empty_reasons_witness :
    (check_with_openai ⟨false, [("violence", true), ("harassment", true)]⟩).reasons = []
      ∧ (check_with_openai ⟨false, [("violence", true), ("harassment", true)]⟩).safe
          = true :=
  C9_unflagged_empty_reasons false [("violence", true), ("harassment", true)] rfl

/-- Claim C10: for every non-empty (after trimming) input, check_text
hands the original, untrimmed text to the upstream oracle and to the
heuristic classifier; trimming is used only for the emptiness test. -/
theorem C10_original_text_passed (key : Option String)
    (upstream : String → Option ModerationResult) (text : String)
    (hne : (pyStrip text).isEmpty = false) :
    check_text key upstream text
      = (if credential_present key then
          match upstream text with
          | some r => check_with_openai r
          | none => check_with_heuristic text
        else check_with_heuristic text) := by
  by_cases hc : credential_present key = true
  · cases hu : upstream text <;>
      simp [check_text, hne, hc, check_with_openai_call, hu]
  · simp [check_text, hne, hc]

/-- Claim C10 witness: an upstream oracle that answers only on the exact
untrimmed string " kill " receives precisely that string. -/
theorem C10_original_text_passed_witness :
    check_text (some "sk-test")
        (fun s => if s == " kill " then some ⟨true, [("violence", true)]⟩ else none)
        " kill "
      = (if credential_present (some "sk-test") then
          match (fun s => if s == " kill "
              then some (⟨true, [("violence", true)]⟩ : ModerationResult)
              else none) " kill " with
          | some r => check_with_openai r
          | none => check_with_heuristic " kill "
        else check_with_heuristic " kill ") :=
  C10_original_text_passed (some "sk-test")
    (fun s => if s == " kill " then some ⟨true, [("violence", true)]⟩ else none)
    " kill " (by decide)

end SafeMsg
